import Mathlib

/-!
# The Windows `routes` table of osquery

A shallow embedding of `osquery/tables/networking/windows/routes.cpp`:
`getAdapterAddressMapping`, `getInterfaceRowMapping` and `genRoutes`.

The three operating-system queries are fields of a record `OS`, so that every
statement below quantifies over whatever the system may answer.  C++
exceptions are the error side of `Except Exn`.  Unsigned 32-bit arithmetic is
arithmetic on `Nat` modulo `2 ^ 32`.
-/

namespace osquery
namespace tables

/-! ## Constants of the Windows SDK headers -/

/-- Value of `NO_ERROR` in `winerror.h`. -/
def NO_ERROR : Nat := 0

/-- Value of `ERROR_BUFFER_OVERFLOW` in `winerror.h`. -/
def ERROR_BUFFER_OVERFLOW : Nat := 111

/-- Value of `ERROR_NOT_SUPPORTED` in `winerror.h` (used by examples only). -/
def ERROR_NOT_SUPPORTED : Nat := 50

/-- Value of `ERROR_NOT_ENOUGH_MEMORY` in `winerror.h` (used by examples only). -/
def ERROR_NOT_ENOUGH_MEMORY : Nat := 8

/-- Value of `AF_UNSPEC` in `winsock2.h`. -/
def AF_UNSPEC : Nat := 0

/-- Value of `AF_INET` in `winsock2.h`. -/
def AF_INET : Nat := 2

/-- Value of `AF_INET6` in `winsock2.h`. -/
def AF_INET6 : Nat := 23

/-- Value of `INET_ADDRSTRLEN` in `ws2ipdef.h`. -/
def INET_ADDRSTRLEN : Nat := 22

/-- Value of `INET6_ADDRSTRLEN` in `ws2ipdef.h`. -/
def INET6_ADDRSTRLEN : Nat := 65

/-- The terminating character of a C string. -/
def NUL : Char := Char.ofNat 0

/-! ## Exceptions and containers -/

/-- The C++ exceptions the file can raise: only `std::out_of_range`, thrown by
`std::map::at`. -/
inductive Exn where
  | out_of_range
  deriving DecidableEq

/-- A `std::map` with integer keys (`DWORD`, `unsigned long`), as the list of
its key-value pairs in insertion order. -/
abbrev StdMap (V : Type) := List (Nat × V)

/-- Member `std::map::insert`: the pair is added unless the key is already
there, in which case the map is left as it is. -/
def StdMap.insert {V : Type} (m : StdMap V) (k : Nat) (v : V) : StdMap V :=
  match List.lookup k m with
  | some _ => m
  | none => m ++ [(k, v)]

/-- Member `std::map::at`: the mapped value, or `std::out_of_range` when the
key is absent. -/
def StdMap.at_ {V : Type} (m : StdMap V) (k : Nat) : Except Exn V :=
  match List.lookup k m with
  | some v => .ok v
  | none => .error .out_of_range

/-- A `Row` of the query engine, `std::map<std::string, std::string>`, as the
list of its column-value pairs. -/
abbrev Row := List (String × String)

/-- Read a column of a row; `none` when the row has no such key. -/
def Row.get? (r : Row) (k : String) : Option String :=
  List.lookup k r

/-- The assignment `r[k] = v`: the key is created, or its value replaced. -/
def Row.set (r : Row) (k v : String) : Row :=
  (k, v) :: r.filter (fun p => p.1 != k)

/-- The result type `QueryData`, a `std::vector<Row>`. -/
abbrev QueryData := List Row

/-- A `std::vector<char>`: its storage and its logical size.  The storage
outlives `clear()`, which only resets the size. -/
structure CharVec where
  mem : List Char
  size : Nat
  deriving DecidableEq

/-- Constructor `std::vector<char> buffer(n)`: `n` value-initialised chars. -/
def CharVec.ofSize (n : Nat) : CharVec :=
  { mem := List.replicate n NUL, size := n }

/-- Member `clear()`: the size becomes zero; chars have no destructor and the
allocation is kept, so the storage still holds what was written. -/
def CharVec.clear (b : CharVec) : CharVec :=
  { b with size := 0 }

/-- Reading a `char*` as a C string: the characters before the first NUL. -/
def cstr (p : List Char) : String :=
  String.mk (p.takeWhile (fun c => c != NUL))

/-! ## Conversion macros of `osquery/tables.h` -/

/-- Modelled from the spec: the macro `INTEGER` of `osquery/tables.h`, which is
not among the sources; it renders an integer column as its decimal text. -/
def INTEGER (n : Nat) : String := Nat.repr n

/-- Modelled from the spec: the macro `UNSIGNED_BIGINT` of `osquery/tables.h`,
which is not among the sources; it renders an unsigned integer column as its
decimal text. -/
def UNSIGNED_BIGINT (n : Nat) : String := Nat.repr n

/-- Modelled from the spec: the macro `SQL_TEXT` of `osquery/tables.h`, which is
not among the sources; it makes a text column of a string. -/
def SQL_TEXT (s : String) : String := s

/-- The function `std::to_string` on an unsigned integer. -/
def to_string (n : Nat) : String := Nat.repr n

/-! ## Data of the IP helper API -/

/-- An `IN_ADDR`: the four bytes `s_b1 .. s_b4` of an IPv4 address. -/
structure IN_ADDR where
  s_b1 : Fin 256
  s_b2 : Fin 256
  s_b3 : Fin 256
  s_b4 : Fin 256
  deriving DecidableEq

/-- An `IN6_ADDR`: the eight 16-bit words of an IPv6 address. -/
structure IN6_ADDR where
  Word : List Nat
  deriving DecidableEq

/-- A `SOCKADDR_INET`: the family and the address read through the `Ipv4` and
through the `Ipv6` member (`Ipv4.sin_addr`, `Ipv6.sin6_addr`). -/
structure SOCKADDR_INET where
  si_family : Nat
  Ipv4 : IN_ADDR
  Ipv6 : IN6_ADDR
  deriving DecidableEq

/-- An `IP_ADDRESS_PREFIX`. -/
structure IP_ADDRESS_PREFIX where
  Prefix : SOCKADDR_INET
  PrefixLength : Nat
  deriving DecidableEq

/-- The fields of a `MIB_IPFORWARD_ROW2` that `genRoutes` reads. -/
structure MIB_IPFORWARD_ROW2 where
  InterfaceIndex : Nat
  DestinationPrefix : IP_ADDRESS_PREFIX
  NextHop : SOCKADDR_INET
  Loopback : Bool
  Metric : Nat
  deriving DecidableEq

/-- A `MIB_IPFORWARD_TABLE2`: the counted array `Table[NumEntries]`. -/
structure MIB_IPFORWARD_TABLE2 where
  Table : List MIB_IPFORWARD_ROW2
  deriving DecidableEq

/-- The count `NumEntries` of a forwarding table. -/
def MIB_IPFORWARD_TABLE2.NumEntries (t : MIB_IPFORWARD_TABLE2) : Nat :=
  t.Table.length

/-- The fields of a `MIB_IPINTERFACE_ROW` that the file reads. -/
structure MIB_IPINTERFACE_ROW where
  Family : Nat
  InterfaceIndex : Nat
  NlMtu : Nat
  Metric : Nat
  deriving DecidableEq

/-- A `MIB_IPINTERFACE_TABLE`: the counted array `Table[NumEntries]`. -/
structure MIB_IPINTERFACE_TABLE where
  Table : List MIB_IPINTERFACE_ROW
  deriving DecidableEq

/-- An `IP_ADDR_STRING`, head of a linked list of address strings:
`IpAddress.String` of the head, and the strings of the nodes after it. -/
structure IP_ADDR_STRING where
  IpAddress : String
  Next : List String
  deriving DecidableEq

/-- The fields of an `IP_ADAPTER_INFO` that the file reads. -/
structure IP_ADAPTER_INFO where
  Index : Nat
  IpAddressList : IP_ADDR_STRING
  GatewayList : IP_ADDR_STRING
  deriving DecidableEq

/-- One call of `GetAdaptersInfo`: the buffer passed (`none` for the null
pointer, otherwise its size in bytes) and the value of `*SizePointer` on
entry. -/
structure AdaptersInfoCall where
  AdapterInfo : Option Nat
  SizePointer : Nat
  deriving DecidableEq

/-- The pointer `buffer.data()` of a `std::vector<BYTE> buffer(n)`: the null
pointer when the vector is empty, otherwise a pointer to its `n` bytes. -/
def vectorData (n : Nat) : Option Nat :=
  if n = 0 then none else some n

/-- The operating system as seen by the file.  `GetIpForwardTable2` and
`GetIpInterfaceTable` map the family filter to a status and a table.
`GetAdaptersInfo` maps a call to a status, the new `*SizePointer` and the
contents of the buffer after the call, read as the code reads them: the
record at the start of the buffer and the records chained after it through
`Next`; nothing is read when the buffer is the null pointer.
`Ipv6AddressToString` is the text the system gives an IPv6 address. -/
structure OS where
  GetIpForwardTable2 : Nat → Nat × MIB_IPFORWARD_TABLE2
  GetIpInterfaceTable : Nat → Nat × MIB_IPINTERFACE_TABLE
  GetAdaptersInfo : AdaptersInfoCall → Nat × Nat × IP_ADAPTER_INFO × List IP_ADAPTER_INFO
  Ipv6AddressToString : IN6_ADDR → List Char

/-- The address argument of `InetNtop`: a pointer to an `IN_ADDR` or to an
`IN6_ADDR`. -/
inductive PAddr where
  | v4 (a : IN_ADDR)
  | v6 (a : IN6_ADDR)
  deriving DecidableEq

/-- Dotted-decimal text of an IPv4 address. -/
def dottedDecimal (a : IN_ADDR) : List Char :=
  (Nat.repr a.s_b1).data ++ '.' :: (Nat.repr a.s_b2).data ++
    '.' :: (Nat.repr a.s_b3).data ++ '.' :: (Nat.repr a.s_b4).data

/-- The text `InetNtop` produces for an address of a family, if the family is
one it supports and matches the address. -/
def addressText (os : OS) (Family : Nat) (pAddr : PAddr) : Option (List Char) :=
  match pAddr with
  | .v4 a => if Family = AF_INET then some (dottedDecimal a) else none
  | .v6 a => if Family = AF_INET6 then some (os.Ipv6AddressToString a) else none

/-- The Windows function `InetNtop(Family, pAddr, pStringBuf, StringBufSize)`,
as the contents of the memory at `pStringBuf` after the call.  On success the
text and its terminating NUL are written at the start of the buffer.  The call
fails, writing nothing, when the family is unsupported or when
`StringBufSize` is zero or too small for the text and its NUL. -/
def InetNtop (os : OS) (Family : Nat) (pAddr : PAddr) (pStringBuf : List Char)
    (StringBufSize : Nat) : List Char :=
  match addressText os Family pAddr with
  | none => pStringBuf
  | some text =>
    if text.length + 1 ≤ StringBufSize then
      text ++ NUL :: pStringBuf.drop (text.length + 1)
    else pStringBuf

/-! ## The three functions of the file -/

/-- Function `getAdapterAddressMapping`, with the calls of `GetAdaptersInfo` it
makes, in order.  The buffer is a vector of the `dwBufLen` bytes the sizing
call reported, so `pAdapterInfo` is the null pointer when that size is 0: the
second call is then made without buffer and the walk over the list, guarded
by `pAdapterInfo != nullptr`, inserts nothing.  With a buffer, the walk
inserts the record at its start and then the records chained after it. -/
def getAdapterAddressMapping (os : OS) :
    StdMap IP_ADAPTER_INFO × List AdaptersInfoCall :=
  let returnMapping : StdMap IP_ADAPTER_INFO := []
  let dwBufLen := 0
  let sizing : AdaptersInfoCall := { AdapterInfo := none, SizePointer := dwBufLen }
  let dwStatus := (os.GetAdaptersInfo sizing).1
  let dwBufLen := (os.GetAdaptersInfo sizing).2.1
  if dwStatus ≠ ERROR_BUFFER_OVERFLOW then
    (returnMapping, [sizing])
  else
    let pAdapterInfo := vectorData dwBufLen
    let query : AdaptersInfoCall :=
      { AdapterInfo := pAdapterInfo, SizePointer := dwBufLen }
    let dwStatus := (os.GetAdaptersInfo query).1
    if dwStatus ≠ NO_ERROR then
      (returnMapping, [sizing, query])
    else
      match pAdapterInfo with
      | none => (returnMapping, [sizing, query])
      | some _ =>
        let records :=
          (os.GetAdaptersInfo query).2.2.1 :: (os.GetAdaptersInfo query).2.2.2
        (records.foldl (fun m adapter => m.insert adapter.Index adapter)
          returnMapping, [sizing, query])

/-- Function `getInterfaceRowMapping(type)`. -/
def getInterfaceRowMapping (os : OS) (type : Nat) : StdMap MIB_IPINTERFACE_ROW :=
  let returnMapping : StdMap MIB_IPINTERFACE_ROW := []
  let dwRetVal := (os.GetIpInterfaceTable type).1
  let interfaces := (os.GetIpInterfaceTable type).2
  if dwRetVal ≠ NO_ERROR then
    returnMapping
  else
    interfaces.Table.foldl
      (fun m currentRow => m.insert currentRow.InterfaceIndex currentRow)
      returnMapping

/-- The IPv6 branch of the loop body of `genRoutes` (lines 105-117): the row
after it. -/
def ipv6Branch (os : OS) (actualInterface : MIB_IPINTERFACE_ROW)
    (currentRow : MIB_IPFORWARD_ROW2) (r : Row) : Row :=
  let addrFamily := currentRow.DestinationPrefix.Prefix.si_family
  let buffer := CharVec.ofSize INET6_ADDRSTRLEN
  let r := r.set "mtu" (INTEGER actualInterface.NlMtu)
  let r := r.set "type" "local"
  let ipAddress := currentRow.DestinationPrefix.Prefix.Ipv6
  let gateway := currentRow.NextHop.Ipv6
  let buffer := { buffer with
    mem := InetNtop os addrFamily (.v6 ipAddress) buffer.mem buffer.size }
  let r := r.set "destination" (SQL_TEXT (cstr buffer.mem))
  let buffer := { buffer with
    mem := InetNtop os addrFamily (.v6 gateway) buffer.mem buffer.size }
  r.set "gateway" (SQL_TEXT (cstr buffer.mem))

/-- The IPv4 branch of the loop body of `genRoutes` (lines 119-148): the row
and the variable `interfaceIpAddress` after it. -/
def ipv4Branch (os : OS) (adapters : StdMap IP_ADAPTER_INFO)
    (actualInterface : MIB_IPINTERFACE_ROW) (currentRow : MIB_IPFORWARD_ROW2)
    (r : Row) (interfaceIpAddress : String) : Row × String :=
  let addrFamily := currentRow.DestinationPrefix.Prefix.si_family
  let buffer := CharVec.ofSize INET_ADDRSTRLEN
  let ipAddress := currentRow.DestinationPrefix.Prefix.Ipv4
  let gateway := currentRow.NextHop.Ipv4
  let buffer := { buffer with
    mem := InetNtop os addrFamily (.v4 ipAddress) buffer.mem buffer.size }
  let r := r.set "destination" (SQL_TEXT (cstr buffer.mem))
  let buffer := buffer.clear
  let (r, interfaceIpAddress) :=
    if currentRow.InterfaceIndex ≠ 1 then
      -- try { ... } catch (const std::out_of_range&) { LOG(ERROR) ... }
      match adapters.at_ currentRow.InterfaceIndex with
      | .ok actualAdapter =>
        let interfaceIpAddress := actualAdapter.IpAddressList.IpAddress
        let r := r.set "gateway" (SQL_TEXT actualAdapter.GatewayList.IpAddress)
        let r := r.set "mtu" (INTEGER actualInterface.NlMtu)
        (r, interfaceIpAddress)
      | .error .out_of_range => (r, interfaceIpAddress)
    else
      let interfaceIpAddress := "127.0.0.1"
      let buffer := { buffer with
        mem := InetNtop os addrFamily (.v4 gateway) buffer.mem buffer.size }
      let r := r.set "gateway" (SQL_TEXT (cstr buffer.mem))
      let r := r.set "mtu" (UNSIGNED_BIGINT 0xFFFFFFFF)
      -- the closing buffer.clear() changes nothing that is read afterwards
      (r, interfaceIpAddress)
  let r := r.set "type" (if currentRow.Loopback then "local" else "remote")
  (r, interfaceIpAddress)

/-- The loop body of `genRoutes` after the interface row has been found
(lines 104-155): the row `r` that is pushed onto the results. -/
def assembleRow (os : OS) (adapters : StdMap IP_ADAPTER_INFO)
    (actualInterface : MIB_IPINTERFACE_ROW) (currentRow : MIB_IPFORWARD_ROW2) : Row :=
  let r : Row := []
  let interfaceIpAddress : String := ""
  let addrFamily := currentRow.DestinationPrefix.Prefix.si_family
  let (r, interfaceIpAddress) :=
    if addrFamily = AF_INET6 then
      (ipv6Branch os actualInterface currentRow r, interfaceIpAddress)
    else if addrFamily = AF_INET then
      ipv4Branch os adapters actualInterface currentRow r interfaceIpAddress
    else (r, interfaceIpAddress)
  let r := r.set "interface" (SQL_TEXT interfaceIpAddress)
  let r := r.set "metric"
    (INTEGER ((currentRow.Metric + actualInterface.Metric) % 2 ^ 32))
  let r := r.set "netmask"
    (SQL_TEXT (to_string currentRow.DestinationPrefix.PrefixLength))
  r.set "flags" (SQL_TEXT "-1")

/-- The body of the loop of `genRoutes` (lines 99-157) for one forwarding
entry: the row pushed onto the results, or the exception of the unguarded
`interfaces.at(...)` of line 103, which leaves the loop and the function. -/
def genRow (os : OS) (interfaces : StdMap MIB_IPINTERFACE_ROW)
    (adapters : StdMap IP_ADAPTER_INFO) (currentRow : MIB_IPFORWARD_ROW2) :
    Except Exn Row :=
  match interfaces.at_ currentRow.InterfaceIndex with
  | .error e => .error e
  | .ok actualInterface => .ok (assembleRow os adapters actualInterface currentRow)

/-- The loop of `genRoutes` over the entries still to visit, `results` being
the rows pushed so far. -/
def genRoutesLoop (os : OS) (interfaces : StdMap MIB_IPINTERFACE_ROW)
    (adapters : StdMap IP_ADAPTER_INFO) :
    List MIB_IPFORWARD_ROW2 → QueryData → Except Exn QueryData
  | [], results => .ok results
  | currentRow :: rest, results =>
    match genRow os interfaces adapters currentRow with
    | .error e => .error e
    | .ok r => genRoutesLoop os interfaces adapters rest (results ++ [r])

/-- Function `genRoutes`; the query context is not read. -/
def genRoutes (os : OS) : Except Exn QueryData :=
  let results : QueryData := []
  let result := (os.GetIpForwardTable2 AF_UNSPEC).1
  let ipTable := (os.GetIpForwardTable2 AF_UNSPEC).2
  if result ≠ NO_ERROR then
    .ok results
  else
    let interfaces := getInterfaceRowMapping os AF_UNSPEC
    let adapters := (getAdapterAddressMapping os).1
    genRoutesLoop os interfaces adapters ipTable.Table results

/-! ## Example systems -/

/-- The address 127.0.0.0. -/
def addr_127_0_0_0 : IN_ADDR := { s_b1 := 127, s_b2 := 0, s_b3 := 0, s_b4 := 0 }

/-- The address 0.0.0.0. -/
def addr_0_0_0_0 : IN_ADDR := { s_b1 := 0, s_b2 := 0, s_b3 := 0, s_b4 := 0 }

/-- The address 10.0.0.0. -/
def addr_10_0_0_0 : IN_ADDR := { s_b1 := 10, s_b2 := 0, s_b3 := 0, s_b4 := 0 }

/-- The address 192.168.1.1. -/
def addr_192_168_1_1 : IN_ADDR := { s_b1 := 192, s_b2 := 168, s_b3 := 1, s_b4 := 1 }

/-- The IPv6 address `::`. -/
def addr6_any : IN6_ADDR := { Word := [0, 0, 0, 0, 0, 0, 0, 0] }

/-- The IPv6 address `::1`. -/
def addr6_loopback : IN6_ADDR := { Word := [0, 0, 0, 0, 0, 0, 0, 1] }

/-- An IPv4 socket address. -/
def sockaddr4 (a : IN_ADDR) : SOCKADDR_INET :=
  { si_family := AF_INET, Ipv4 := a, Ipv6 := addr6_any }

/-- An IPv6 socket address. -/
def sockaddr6 (a : IN6_ADDR) : SOCKADDR_INET :=
  { si_family := AF_INET6, Ipv4 := addr_0_0_0_0, Ipv6 := a }

/-- The route 127.0.0.0/8, on-link on the software loopback (index 1), with
next hop 0.0.0.0. -/
def routeLoopback4 : MIB_IPFORWARD_ROW2 :=
  { InterfaceIndex := 1,
    DestinationPrefix := { Prefix := sockaddr4 addr_127_0_0_0, PrefixLength := 8 },
    NextHop := sockaddr4 addr_0_0_0_0,
    Loopback := true,
    Metric := 256 }

/-- The default route 0.0.0.0/0 through 192.168.1.1 on interface 5. -/
def routeDefault4 : MIB_IPFORWARD_ROW2 :=
  { InterfaceIndex := 5,
    DestinationPrefix := { Prefix := sockaddr4 addr_0_0_0_0, PrefixLength := 0 },
    NextHop := sockaddr4 addr_192_168_1_1,
    Loopback := false,
    Metric := 0 }

/-- The route 10.0.0.0/8 on interface 7, an interface without adapter record. -/
def routeTunnel4 : MIB_IPFORWARD_ROW2 :=
  { InterfaceIndex := 7,
    DestinationPrefix := { Prefix := sockaddr4 addr_10_0_0_0, PrefixLength := 8 },
    NextHop := sockaddr4 addr_0_0_0_0,
    Loopback := false,
    Metric := 4294967295 }

/-- The route ::1/128 on the software loopback (index 1). -/
def routeLoopback6 : MIB_IPFORWARD_ROW2 :=
  { InterfaceIndex := 1,
    DestinationPrefix := { Prefix := sockaddr6 addr6_loopback, PrefixLength := 128 },
    NextHop := sockaddr6 addr6_any,
    Loopback := false,
    Metric := 256 }

/-- An entry whose family is neither `AF_INET` nor `AF_INET6`, on interface 5. -/
def routeUnspec : MIB_IPFORWARD_ROW2 :=
  { InterfaceIndex := 5,
    DestinationPrefix :=
      { Prefix := { si_family := AF_UNSPEC, Ipv4 := addr_0_0_0_0, Ipv6 := addr6_any },
        PrefixLength := 0 },
    NextHop := { si_family := AF_UNSPEC, Ipv4 := addr_0_0_0_0, Ipv6 := addr6_any },
    Loopback := false,
    Metric := 1 }

/-- Interface row of the software loopback. -/
def ifRow1 : MIB_IPINTERFACE_ROW :=
  { Family := AF_INET, InterfaceIndex := 1, NlMtu := 1500, Metric := 75 }

/-- Interface row of interface 5. -/
def ifRow5 : MIB_IPINTERFACE_ROW :=
  { Family := AF_INET, InterfaceIndex := 5, NlMtu := 1500, Metric := 25 }

/-- Interface row of interface 7. -/
def ifRow7 : MIB_IPINTERFACE_ROW :=
  { Family := AF_INET, InterfaceIndex := 7, NlMtu := 1400, Metric := 5 }

/-- Adapter record of interface 5. -/
def adapter5 : IP_ADAPTER_INFO :=
  { Index := 5,
    IpAddressList := { IpAddress := "192.168.1.10", Next := [] },
    GatewayList := { IpAddress := "192.168.1.1", Next := [] } }

/-- The record read from a value-initialised buffer nothing was written to. -/
def zeroAdapter : IP_ADAPTER_INFO :=
  { Index := 0,
    IpAddressList := { IpAddress := "", Next := [] },
    GatewayList := { IpAddress := "", Next := [] } }

/-- A text for the two IPv6 addresses of the examples. -/
def demoIpv6Text (a : IN6_ADDR) : List Char :=
  if a = addr6_loopback then [':', ':', '1'] else [':', ':']

/-- The usual answers of `GetAdaptersInfo`: the sizing call reports
`ERROR_BUFFER_OVERFLOW` and 640 bytes, the call with a buffer succeeds with
the record of adapter 5. -/
def demoGetAdaptersInfo (c : AdaptersInfoCall) :
    Nat × Nat × IP_ADAPTER_INFO × List IP_ADAPTER_INFO :=
  match c.AdapterInfo with
  | none => (ERROR_BUFFER_OVERFLOW, 640, zeroAdapter, [])
  | some _ => (NO_ERROR, 640, adapter5, [])

/-- A system with five routes (IPv4 loopback, IPv4 with adapter, IPv4 without
adapter, IPv6, neither family), interface rows 1, 5 and 7, and adapter 5. -/
def demoOS : OS :=
  { GetIpForwardTable2 := fun _ =>
      (NO_ERROR,
        { Table := [routeLoopback4, routeDefault4, routeTunnel4, routeLoopback6, routeUnspec] }),
    GetIpInterfaceTable := fun _ => (NO_ERROR, { Table := [ifRow1, ifRow5, ifRow7] }),
    GetAdaptersInfo := demoGetAdaptersInfo,
    Ipv6AddressToString := demoIpv6Text }

/-- The interface-row mapping of `demoOS`. -/
def demoInterfaces : StdMap MIB_IPINTERFACE_ROW := [(1, ifRow1), (5, ifRow5), (7, ifRow7)]

/-- The adapter mapping of `demoOS`. -/
def demoAdapters : StdMap IP_ADAPTER_INFO := [(5, adapter5)]

/-- The system `demoOS` with a forwarding-table fetch that fails. -/
def noRoutesOS : OS :=
  { demoOS with
    GetIpForwardTable2 := fun _ => (ERROR_NOT_SUPPORTED, { Table := [routeDefault4] }) }

/-- A system whose interface-table query fails while the forwarding table
holds the default route on interface 5. -/
def noInterfacesOS : OS :=
  { demoOS with
    GetIpForwardTable2 := fun _ => (NO_ERROR, { Table := [routeDefault4] }),
    GetIpInterfaceTable := fun _ => (ERROR_NOT_ENOUGH_MEMORY, { Table := [] }) }

/-- A system whose only route is the IPv4 loopback route 127.0.0.0/8. -/
def loopbackOS : OS :=
  { demoOS with
    GetIpForwardTable2 := fun _ => (NO_ERROR, { Table := [routeLoopback4] }) }

/-- A system whose sizing call of `GetAdaptersInfo` reports success. -/
def sizingSucceedsOS : OS :=
  { demoOS with GetAdaptersInfo := fun _ => (NO_ERROR, 0, adapter5, []) }

/-- A system whose sizing call of `GetAdaptersInfo` reports
`ERROR_BUFFER_OVERFLOW` and a size of 0 bytes, and which succeeds with the
record of adapter 5 whenever it is handed a buffer. -/
def zeroSizeOS : OS :=
  { demoOS with
    GetAdaptersInfo := fun c =>
      match c.AdapterInfo with
      | none => (ERROR_BUFFER_OVERFLOW, 0, zeroAdapter, [])
      | some _ => (NO_ERROR, 0, adapter5, []) }

/-- The sizing call `GetAdaptersInfo(NULL, &dwBufLen)` with `dwBufLen = 0`. -/
def sizingCall : AdaptersInfoCall := { AdapterInfo := none, SizePointer := 0 }

/-- The second call, `GetAdaptersInfo(pAdapterInfo, &dwBufLen)`, where
`pAdapterInfo` is `buffer.data()` of the vector of the `n` bytes the sizing
call reported and `dwBufLen` is `n`. -/
def queryCall (n : Nat) : AdaptersInfoCall :=
  { AdapterInfo := vectorData n, SizePointer := n }

/-- The rows `genRoutes` returns on `demoOS`. -/
def demoRows : QueryData :=
  [[("flags", "-1"), ("netmask", "8"), ("metric", "331"), ("interface", "127.0.0.1"),
      ("type", "local"), ("mtu", "4294967295"), ("gateway", "127.0.0.0"),
      ("destination", "127.0.0.0")],
    [("flags", "-1"), ("netmask", "0"), ("metric", "25"), ("interface", "192.168.1.10"),
      ("type", "remote"), ("mtu", "1500"), ("gateway", "192.168.1.1"),
      ("destination", "0.0.0.0")],
    [("flags", "-1"), ("netmask", "8"), ("metric", "4"), ("interface", ""),
      ("type", "remote"), ("destination", "10.0.0.0")],
    [("flags", "-1"), ("netmask", "128"), ("metric", "331"), ("interface", ""),
      ("gateway", "::"), ("destination", "::1"), ("type", "local"), ("mtu", "1500")],
    [("flags", "-1"), ("netmask", "0"), ("metric", "26"), ("interface", "")]]

/-! ## Lemmas on rows, C strings and address text -/

set_option maxRecDepth 100000 in
/-- Decimal text of a byte: at most three characters, none of them NUL. -/
theorem byte_text : ∀ b : Fin 256,
    (Nat.repr b.val).data.length ≤ 3 ∧ ∀ c ∈ (Nat.repr b.val).data, (c != NUL) = true := by
  decide

/-- Reading a column after an assignment: the new value at the assigned key, the old content elsewhere. -/
theorem Row.get?_set (r : Row) (k v k' : String) :
    (r.set k v).get? k' = if k' = k then some v else r.get? k' := by
  unfold Row.set Row.get?
  by_cases h : k' = k
  · subst h; simp
  · simp only [h, if_false]
    rw [List.lookup_cons]
    have h1 : (k' == k) = false := by simpa using h
    simp only [h1]
    induction r with
    | nil => simp
    | cons p t ih =>
      obtain ⟨a, b⟩ := p
      by_cases ha : a = k
      · subst ha
        simp [List.filter_cons, List.lookup_cons, h1, ih]
      · have : (a != k) = true := by simpa using ha
        simp [List.filter_cons, this, List.lookup_cons, ih]

/-- A text without NUL is read back from a buffer that holds it followed by NUL. -/
theorem cstr_text (text rest : List Char) (h : ∀ c ∈ text, (c != NUL) = true) :
    cstr (text ++ NUL :: rest) = String.mk text := by
  unfold cstr
  congr 1
  induction text with
  | nil => simp [List.takeWhile]
  | cons c t ih =>
    have hc : (c != NUL) = true := h c (List.mem_cons_self _ _)
    simp only [List.cons_append, List.takeWhile_cons, hc, if_true]
    rw [ih (fun d hd => h d (List.mem_cons_of_mem _ hd))]

/-- Dotted-decimal text has at most 15 characters. -/
theorem dottedDecimal_length (a : IN_ADDR) : (dottedDecimal a).length ≤ 15 := by
  unfold dottedDecimal
  have h1 := (byte_text a.s_b1).1
  have h2 := (byte_text a.s_b2).1
  have h3 := (byte_text a.s_b3).1
  have h4 := (byte_text a.s_b4).1
  simp only [List.length_append, List.length_cons]
  omega

/-- Dotted-decimal text contains no NUL. -/
theorem dottedDecimal_no_NUL (a : IN_ADDR) : ∀ c ∈ dottedDecimal a, (c != NUL) = true := by
  unfold dottedDecimal
  have h1 := (byte_text a.s_b1).2
  have h2 := (byte_text a.s_b2).2
  have h3 := (byte_text a.s_b3).2
  have h4 := (byte_text a.s_b4).2
  have hdot : ('.' != NUL) = true := by decide
  intro c hc
  simp only [List.mem_append, List.mem_cons] at hc
  rcases hc with ((hc | rfl | hc) | rfl | hc) | rfl | hc
  · exact h1 c hc
  · exact hdot
  · exact h2 c hc
  · exact hdot
  · exact h3 c hc
  · exact hdot
  · exact h4 c hc

/-! ## Lemmas on the branches and the loop -/

/-- On a fresh buffer of `INET_ADDRSTRLEN` chars, `InetNtop` leaves the dotted-decimal text of the address. -/
theorem InetNtop_v4_fresh (os : OS) (a : IN_ADDR) :
    cstr (InetNtop os AF_INET (.v4 a) (CharVec.ofSize INET_ADDRSTRLEN).mem
      (CharVec.ofSize INET_ADDRSTRLEN).size) = String.mk (dottedDecimal a) := by
  have hlen := dottedDecimal_length a
  have hfit : (dottedDecimal a).length + 1 ≤ 22 := by omega
  simp only [InetNtop, addressText, CharVec.ofSize, INET_ADDRSTRLEN, if_true, hfit]
  exact cstr_text _ _ (dottedDecimal_no_NUL a)

/-- With `StringBufSize = 0`, `InetNtop` leaves the memory as it was. -/
theorem InetNtop_size_zero (os : OS) (Family : Nat) (pAddr : PAddr) (p : List Char) :
    InetNtop os Family pAddr p 0 = p := by
  unfold InetNtop
  cases addressText os Family pAddr <;> simp

/-- The IPv4 branch when the interface index is 1. -/
theorem ipv4Branch_loopback (os : OS) (adapters : StdMap IP_ADAPTER_INFO)
    (actualInterface : MIB_IPINTERFACE_ROW) (currentRow : MIB_IPFORWARD_ROW2)
    (r : Row) (ip : String)
    (hfam : currentRow.DestinationPrefix.Prefix.si_family = AF_INET)
    (hidx : currentRow.InterfaceIndex = 1) :
    ipv4Branch os adapters actualInterface currentRow r ip =
      ((((r.set "destination" (String.mk (dottedDecimal currentRow.DestinationPrefix.Prefix.Ipv4))).set
          "gateway" (String.mk (dottedDecimal currentRow.DestinationPrefix.Prefix.Ipv4))).set
          "mtu" (UNSIGNED_BIGINT 0xFFFFFFFF)).set
          "type" (if currentRow.Loopback then "local" else "remote"), "127.0.0.1") := by
  have hd := InetNtop_v4_fresh os currentRow.DestinationPrefix.Prefix.Ipv4
  simp only [ipv4Branch, hfam, hidx, CharVec.clear, InetNtop_size_zero, SQL_TEXT, hd,
    ne_eq, not_true_eq_false, if_false]

/-- The IPv4 branch when the interface index is not 1 and the adapter is found. -/
theorem ipv4Branch_adapter (os : OS) (adapters : StdMap IP_ADAPTER_INFO)
    (actualInterface : MIB_IPINTERFACE_ROW) (currentRow : MIB_IPFORWARD_ROW2)
    (r : Row) (ip : String) (actualAdapter : IP_ADAPTER_INFO)
    (hfam : currentRow.DestinationPrefix.Prefix.si_family = AF_INET)
    (hidx : currentRow.InterfaceIndex ≠ 1)
    (had : adapters.at_ currentRow.InterfaceIndex = .ok actualAdapter) :
    ipv4Branch os adapters actualInterface currentRow r ip =
      ((((r.set "destination" (String.mk (dottedDecimal currentRow.DestinationPrefix.Prefix.Ipv4))).set
          "gateway" actualAdapter.GatewayList.IpAddress).set
          "mtu" (INTEGER actualInterface.NlMtu)).set
          "type" (if currentRow.Loopback then "local" else "remote"),
        actualAdapter.IpAddressList.IpAddress) := by
  have hd := InetNtop_v4_fresh os currentRow.DestinationPrefix.Prefix.Ipv4
  simp only [ipv4Branch, hfam, hidx, had, CharVec.clear, SQL_TEXT, hd,
    ne_eq, not_false_eq_true, if_true]

/-- The IPv4 branch when the interface index is not 1 and `adapters.at` throws. -/
theorem ipv4Branch_no_adapter (os : OS) (adapters : StdMap IP_ADAPTER_INFO)
    (actualInterface : MIB_IPINTERFACE_ROW) (currentRow : MIB_IPFORWARD_ROW2)
    (r : Row) (ip : String) (e : Exn)
    (hfam : currentRow.DestinationPrefix.Prefix.si_family = AF_INET)
    (hidx : currentRow.InterfaceIndex ≠ 1)
    (had : adapters.at_ currentRow.InterfaceIndex = .error e) :
    ipv4Branch os adapters actualInterface currentRow r ip =
      ((r.set "destination" (String.mk (dottedDecimal currentRow.DestinationPrefix.Prefix.Ipv4))).set
          "type" (if currentRow.Loopback then "local" else "remote"), ip) := by
  have hd := InetNtop_v4_fresh os currentRow.DestinationPrefix.Prefix.Ipv4
  cases e
  simp only [ipv4Branch, hfam, hidx, had, CharVec.clear, SQL_TEXT, hd,
    ne_eq, not_false_eq_true, if_true]

/-- The loop returns rows exactly when every remaining entry yields a row; the rows are pushed after `results`, in table order. -/
theorem genRoutesLoop_ok (os : OS) (interfaces : StdMap MIB_IPINTERFACE_ROW)
    (adapters : StdMap IP_ADAPTER_INFO) (table : List MIB_IPFORWARD_ROW2) :
    ∀ (results rows : QueryData),
      genRoutesLoop os interfaces adapters table results = .ok rows ↔
        ∃ pushed : QueryData, rows = results ++ pushed ∧
          table.map (genRow os interfaces adapters) = pushed.map Except.ok := by
  induction table with
  | nil =>
    intro results rows
    simp only [genRoutesLoop, List.map_nil]
    constructor
    · intro h
      refine ⟨[], ?_, rfl⟩
      simpa using (Except.ok.inj h).symm
    · rintro ⟨pushed, hrows, hp⟩
      have : pushed = [] := by
        cases pushed with
        | nil => rfl
        | cons a t => simp at hp
      subst this
      simp [hrows]
  | cons e rest ih =>
    intro results rows
    simp only [genRoutesLoop, List.map_cons]
    cases hrow : genRow os interfaces adapters e with
    | error x =>
      simp only
      constructor
      · intro h; cases h
      · rintro ⟨pushed, _, hp⟩
        cases pushed with
        | nil => simp at hp
        | cons a t => simp at hp
    | ok r =>
      simp only
      rw [ih]
      constructor
      · rintro ⟨pushed, hrows, hp⟩
        refine ⟨r :: pushed, ?_, ?_⟩
        · simp [hrows]
        · simp [hp]
      · rintro ⟨pushed, hrows, hp⟩
        cases pushed with
        | nil => simp at hp
        | cons a t =>
          simp only [List.map_cons, List.cons.injEq, Except.ok.injEq] at hp
          obtain ⟨ha, ht⟩ := hp
          subst ha
          exact ⟨t, by simp [hrows], ht⟩

/-! ## Lemmas on the assembled row -/

/-- The empty row has no key. -/
theorem Row.get?_nil (k : String) : Row.get? [] k = none := rfl

/-- When the interface row is found, the loop body pushes the assembled row. -/
theorem genRow_of_interface (os : OS) (interfaces : StdMap MIB_IPINTERFACE_ROW)
    (adapters : StdMap IP_ADAPTER_INFO) (currentRow : MIB_IPFORWARD_ROW2)
    (actualInterface : MIB_IPINTERFACE_ROW)
    (hif : interfaces.at_ currentRow.InterfaceIndex = .ok actualInterface) :
    genRow os interfaces adapters currentRow =
      .ok (assembleRow os adapters actualInterface currentRow) := by
  simp only [genRow, hif]

/-- A row is pushed only when the interface row was found, and it is the assembled row. -/
theorem genRow_ok_inv (os : OS) (interfaces : StdMap MIB_IPINTERFACE_ROW)
    (adapters : StdMap IP_ADAPTER_INFO) (currentRow : MIB_IPFORWARD_ROW2) (r : Row)
    (h : genRow os interfaces adapters currentRow = .ok r) :
    ∃ actualInterface, interfaces.at_ currentRow.InterfaceIndex = .ok actualInterface ∧
      r = assembleRow os adapters actualInterface currentRow := by
  unfold genRow at h
  cases hat : interfaces.at_ currentRow.InterfaceIndex with
  | error e => rw [hat] at h; cases h
  | ok actualInterface =>
    rw [hat] at h
    exact ⟨actualInterface, rfl, (Except.ok.inj h).symm⟩

/-- When every entry's interface index is in the mapping, every entry yields a row. -/
theorem map_genRow_of_interfaces (os : OS) (interfaces : StdMap MIB_IPINTERFACE_ROW)
    (adapters : StdMap IP_ADAPTER_INFO) (table : List MIB_IPFORWARD_ROW2)
    (hifs : ∀ e ∈ table, ∃ actualInterface,
      interfaces.at_ e.InterfaceIndex = .ok actualInterface) :
    ∃ pushed : QueryData,
      table.map (genRow os interfaces adapters) = pushed.map Except.ok := by
  induction table with
  | nil => exact ⟨[], rfl⟩
  | cons e rest ih =>
    obtain ⟨actualInterface, hif⟩ := hifs e (List.mem_cons_self _ _)
    obtain ⟨pushed, hp⟩ := ih (fun x hx => hifs x (List.mem_cons_of_mem _ hx))
    refine ⟨assembleRow os adapters actualInterface e :: pushed, ?_⟩
    simp only [List.map_cons, hp, genRow_of_interface os interfaces adapters e actualInterface hif]

/-- The `metric` column of an assembled row. -/
theorem assembleRow_metric (os : OS) (adapters : StdMap IP_ADAPTER_INFO)
    (actualInterface : MIB_IPINTERFACE_ROW) (currentRow : MIB_IPFORWARD_ROW2) :
    (assembleRow os adapters actualInterface currentRow).get? "metric" =
      some (INTEGER ((currentRow.Metric + actualInterface.Metric) % 2 ^ 32)) := by
  simp [assembleRow, Row.get?_set]

/-- The `netmask` column of an assembled row. -/
theorem assembleRow_netmask (os : OS) (adapters : StdMap IP_ADAPTER_INFO)
    (actualInterface : MIB_IPINTERFACE_ROW) (currentRow : MIB_IPFORWARD_ROW2) :
    (assembleRow os adapters actualInterface currentRow).get? "netmask" =
      some (to_string currentRow.DestinationPrefix.PrefixLength) := by
  simp [assembleRow, Row.get?_set, SQL_TEXT]

/-- The `flags` column of an assembled row. -/
theorem assembleRow_flags (os : OS) (adapters : StdMap IP_ADAPTER_INFO)
    (actualInterface : MIB_IPINTERFACE_ROW) (currentRow : MIB_IPFORWARD_ROW2) :
    (assembleRow os adapters actualInterface currentRow).get? "flags" = some "-1" := by
  simp [assembleRow, Row.get?_set, SQL_TEXT]

/-- The assembled row of an IPv4 entry, in terms of the IPv4 branch. -/
theorem assembleRow_ipv4 (os : OS) (adapters : StdMap IP_ADAPTER_INFO)
    (actualInterface : MIB_IPINTERFACE_ROW) (currentRow : MIB_IPFORWARD_ROW2)
    (hfam : currentRow.DestinationPrefix.Prefix.si_family = AF_INET) :
    assembleRow os adapters actualInterface currentRow =
      (((((ipv4Branch os adapters actualInterface currentRow [] "").1.set "interface"
        (ipv4Branch os adapters actualInterface currentRow [] "").2).set "metric"
        (INTEGER ((currentRow.Metric + actualInterface.Metric) % 2 ^ 32))).set "netmask"
        (to_string currentRow.DestinationPrefix.PrefixLength)).set "flags" "-1") := by
  have h6 : ¬ AF_INET = AF_INET6 := by decide
  simp only [assembleRow, hfam, h6, if_false, if_true, SQL_TEXT]

/-- The assembled row of an IPv6 entry, in terms of the IPv6 branch. -/
theorem assembleRow_ipv6 (os : OS) (adapters : StdMap IP_ADAPTER_INFO)
    (actualInterface : MIB_IPINTERFACE_ROW) (currentRow : MIB_IPFORWARD_ROW2)
    (hfam : currentRow.DestinationPrefix.Prefix.si_family = AF_INET6) :
    assembleRow os adapters actualInterface currentRow =
      (((((ipv6Branch os actualInterface currentRow []).set "interface" "").set "metric"
        (INTEGER ((currentRow.Metric + actualInterface.Metric) % 2 ^ 32))).set "netmask"
        (to_string currentRow.DestinationPrefix.PrefixLength)).set "flags" "-1") := by
  simp only [assembleRow, hfam, if_true, SQL_TEXT]

/-- The IPv6 branch sets `type` to "local". -/
theorem ipv6Branch_type (os : OS) (actualInterface : MIB_IPINTERFACE_ROW)
    (currentRow : MIB_IPFORWARD_ROW2) (r : Row) :
    (ipv6Branch os actualInterface currentRow r).get? "type" = some "local" := by
  simp [ipv6Branch, Row.get?_set]

/-- The IPv4 branch sets `type` from the loopback flag on each of its three paths. -/
theorem ipv4Branch_type (os : OS) (adapters : StdMap IP_ADAPTER_INFO)
    (actualInterface : MIB_IPINTERFACE_ROW) (currentRow : MIB_IPFORWARD_ROW2)
    (r : Row) (ip : String) :
    (ipv4Branch os adapters actualInterface currentRow r ip).1.get? "type" =
      some (if currentRow.Loopback then "local" else "remote") := by
  unfold ipv4Branch
  simp only []
  split <;> simp [Row.get?_set]

/-! ## Lemmas on the adapter query -/

/-- With no bytes to allocate the second call of `GetAdaptersInfo` is the
sizing call again. -/
theorem queryCall_zero : queryCall 0 = sizingCall := rfl

/-- When the sizing call reports `ERROR_BUFFER_OVERFLOW` and a size of 0, the
buffer is empty and `pAdapterInfo` is the null pointer: the sizing call is
made a second time and the mapping is empty, whatever the system would have
written into a buffer. -/
theorem getAdapterAddressMapping_zero_size (os : OS)
    (hstatus : (os.GetAdaptersInfo sizingCall).1 = ERROR_BUFFER_OVERFLOW)
    (hsize : (os.GetAdaptersInfo sizingCall).2.1 = 0) :
    getAdapterAddressMapping os = ([], [sizingCall, sizingCall]) := by
  simp only [sizingCall] at hstatus hsize
  simp only [getAdapterAddressMapping, sizingCall, hstatus, hsize, vectorData,
    ne_eq, not_true_eq_false, if_false, if_true]
  split <;> rfl

/-- On `zeroSizeOS` the mapping is empty after two calls without buffer. -/
theorem getAdapterAddressMapping_zeroSizeOS :
    getAdapterAddressMapping zeroSizeOS = ([], [sizingCall, sizingCall]) :=
  getAdapterAddressMapping_zero_size zeroSizeOS rfl rfl

/-! ## The claims -/

/-- C1: when the forwarding-table fetch reports success and every entry's
interface index is a key of the interface-row mapping, `genRoutes` returns
one row per forwarding entry, in table order: the result has `NumEntries`
rows and the row at each position is the row built from the entry at that
position, whatever the families of the entries and the adapter mapping. -/
theorem genRoutes_one_row_per_entry (os : OS)
    (hfetch : (os.GetIpForwardTable2 AF_UNSPEC).1 = NO_ERROR)
    (hifs : ∀ e ∈ (os.GetIpForwardTable2 AF_UNSPEC).2.Table, ∃ actualInterface,
      (getInterfaceRowMapping os AF_UNSPEC).at_ e.InterfaceIndex = .ok actualInterface) :
    ∃ rows : QueryData, genRoutes os = .ok rows ∧
      rows.length = (os.GetIpForwardTable2 AF_UNSPEC).2.NumEntries ∧
      (os.GetIpForwardTable2 AF_UNSPEC).2.Table.map
        (genRow os (getInterfaceRowMapping os AF_UNSPEC) (getAdapterAddressMapping os).1) =
          rows.map Except.ok := by
  obtain ⟨pushed, hp⟩ := map_genRow_of_interfaces os (getInterfaceRowMapping os AF_UNSPEC)
    (getAdapterAddressMapping os).1 _ hifs
  refine ⟨pushed, ?_, ?_, hp⟩
  · simp only [genRoutes, hfetch, ne_eq, not_true_eq_false, if_false]
    exact (genRoutesLoop_ok os _ _ _ [] pushed).2 ⟨pushed, by simp, hp⟩
  · have := congrArg List.length hp
    simpa [MIB_IPFORWARD_TABLE2.NumEntries] using this.symm

/-- Witness of C1 on `demoOS`: five entries of all kinds give five rows. -/
theorem genRoutes_one_row_per_entry_witness :
    ∃ rows : QueryData, genRoutes demoOS = .ok rows ∧
      rows.length = (demoOS.GetIpForwardTable2 AF_UNSPEC).2.NumEntries ∧
      (demoOS.GetIpForwardTable2 AF_UNSPEC).2.Table.map
        (genRow demoOS (getInterfaceRowMapping demoOS AF_UNSPEC)
          (getAdapterAddressMapping demoOS).1) = rows.map Except.ok :=
  genRoutes_one_row_per_entry demoOS rfl (by
    intro e he
    have hmem : e = routeLoopback4 ∨ e = routeDefault4 ∨ e = routeTunnel4 ∨
        e = routeLoopback6 ∨ e = routeUnspec := by
      simpa [demoOS] using he
    rcases hmem with rfl | rfl | rfl | rfl | rfl
    · exact ⟨ifRow1, rfl⟩
    · exact ⟨ifRow5, rfl⟩
    · exact ⟨ifRow7, rfl⟩
    · exact ⟨ifRow1, rfl⟩
    · exact ⟨ifRow5, rfl⟩)

/-- C2: when the forwarding-table fetch returns a status other than
`NO_ERROR`, `genRoutes` returns the empty sequence of rows and raises
nothing, whatever the other two queries would answer. -/
theorem genRoutes_fetch_failure (os : OS)
    (hfetch : (os.GetIpForwardTable2 AF_UNSPEC).1 ≠ NO_ERROR) :
    genRoutes os = .ok [] := by
  simp only [genRoutes, hfetch, ne_eq, not_false_eq_true, if_true]

/-- Witness of C2 on `noRoutesOS`, whose fetch answers `ERROR_NOT_SUPPORTED`. -/
theorem genRoutes_fetch_failure_witness : genRoutes noRoutesOS = .ok [] :=
  genRoutes_fetch_failure noRoutesOS (by decide)

/-- C3, evaluated where it fails: with a successful fetch of one route on
interface 5 and an interface-table query that failed, `genRoutes` leaves
with `std::out_of_range` instead of returning rows. -/
theorem genRoutes_raises_out_of_range :
    (noInterfacesOS.GetIpForwardTable2 AF_UNSPEC).1 = NO_ERROR ∧
      (noInterfacesOS.GetIpInterfaceTable AF_UNSPEC).1 ≠ NO_ERROR ∧
      getInterfaceRowMapping noInterfacesOS AF_UNSPEC = [] ∧
      genRoutes noInterfacesOS = .error Exn.out_of_range :=
  ⟨rfl, by decide, rfl, rfl⟩

/-- C4 as stated fails: the IPv6 route `::1/128` on interface index 1, whose
index is in the interface-row mapping, gets an empty `interface` and the MTU
of its interface row, so not every entry with index 1 gets "127.0.0.1" and
"4294967295". -/
theorem loopback_index_any_family_counterexample :
    ¬ (∀ (os : OS) (interfaces : StdMap MIB_IPINTERFACE_ROW)
        (adapters : StdMap IP_ADAPTER_INFO) (currentRow : MIB_IPFORWARD_ROW2)
        (actualInterface : MIB_IPINTERFACE_ROW),
        currentRow.InterfaceIndex = 1 →
        interfaces.at_ currentRow.InterfaceIndex = .ok actualInterface →
        ∃ r, genRow os interfaces adapters currentRow = .ok r ∧
          r.get? "interface" = some "127.0.0.1" ∧ r.get? "mtu" = some "4294967295") := by
  intro h
  obtain ⟨r, hr, hi, _⟩ := h demoOS demoInterfaces demoAdapters routeLoopback6 ifRow1 rfl rfl
  have hrow : genRow demoOS demoInterfaces demoAdapters routeLoopback6 =
      .ok [("flags", "-1"), ("netmask", "128"), ("metric", "331"), ("interface", ""),
        ("gateway", "::"), ("destination", "::1"), ("type", "local"), ("mtu", "1500")] := rfl
  rw [hrow] at hr
  have hreq := Except.ok.inj hr
  subst hreq
  revert hi
  decide

/-- C4, amended: an IPv4 forwarding entry whose interface index is 1 and is a
key of the interface-row mapping gets a row with `interface` "127.0.0.1" and
`mtu` "4294967295". -/
theorem genRow_loopback_index_ipv4 (os : OS) (interfaces : StdMap MIB_IPINTERFACE_ROW)
    (adapters : StdMap IP_ADAPTER_INFO) (currentRow : MIB_IPFORWARD_ROW2)
    (actualInterface : MIB_IPINTERFACE_ROW)
    (hfam : currentRow.DestinationPrefix.Prefix.si_family = AF_INET)
    (hidx : currentRow.InterfaceIndex = 1)
    (hif : interfaces.at_ currentRow.InterfaceIndex = .ok actualInterface) :
    ∃ r, genRow os interfaces adapters currentRow = .ok r ∧
      r.get? "interface" = some "127.0.0.1" ∧ r.get? "mtu" = some "4294967295" := by
  refine ⟨_, genRow_of_interface os interfaces adapters currentRow actualInterface hif, ?_, ?_⟩
  · rw [assembleRow_ipv4 os adapters actualInterface currentRow hfam,
      ipv4Branch_loopback os adapters actualInterface currentRow [] "" hfam hidx]
    simp [Row.get?_set]
  · have hmtu : UNSIGNED_BIGINT 0xFFFFFFFF = "4294967295" := by decide
    rw [assembleRow_ipv4 os adapters actualInterface currentRow hfam,
      ipv4Branch_loopback os adapters actualInterface currentRow [] "" hfam hidx]
    simp [Row.get?_set, hmtu]

/-- Witness of the amended C4 on the route 127.0.0.0/8 of `demoOS`. -/
theorem genRow_loopback_index_ipv4_witness :
    ∃ r, genRow demoOS demoInterfaces demoAdapters routeLoopback4 = .ok r ∧
      r.get? "interface" = some "127.0.0.1" ∧ r.get? "mtu" = some "4294967295" :=
  genRow_loopback_index_ipv4 demoOS demoInterfaces demoAdapters routeLoopback4 ifRow1
    rfl rfl rfl

/-- C5, evaluated where it fails: for the IPv4 loopback route 127.0.0.0/8 with
next hop 0.0.0.0, the `gateway` of the row of `genRoutes` is "127.0.0.0", the
text of the destination, while the text of the next hop is "0.0.0.0". -/
theorem genRoutes_loopback_gateway_is_destination :
    routeLoopback4.InterfaceIndex = 1 ∧
      String.mk (dottedDecimal routeLoopback4.NextHop.Ipv4) = "0.0.0.0" ∧
      (genRoutes loopbackOS).toOption.map (fun rows => rows.map (fun r => r.get? "gateway")) =
        some [some "127.0.0.0"] := by
  decide

/-- The defect behind C5 in general: for every IPv4 entry with interface
index 1 the `gateway` column is the text of the destination address, because
`InetNtop` is handed a cleared buffer and the size 0. -/
theorem genRow_loopback_gateway (os : OS) (interfaces : StdMap MIB_IPINTERFACE_ROW)
    (adapters : StdMap IP_ADAPTER_INFO) (currentRow : MIB_IPFORWARD_ROW2)
    (actualInterface : MIB_IPINTERFACE_ROW)
    (hfam : currentRow.DestinationPrefix.Prefix.si_family = AF_INET)
    (hidx : currentRow.InterfaceIndex = 1)
    (hif : interfaces.at_ currentRow.InterfaceIndex = .ok actualInterface) :
    ∃ r, genRow os interfaces adapters currentRow = .ok r ∧
      r.get? "gateway" =
        some (String.mk (dottedDecimal currentRow.DestinationPrefix.Prefix.Ipv4)) := by
  refine ⟨_, genRow_of_interface os interfaces adapters currentRow actualInterface hif, ?_⟩
  rw [assembleRow_ipv4 os adapters actualInterface currentRow hfam,
    ipv4Branch_loopback os adapters actualInterface currentRow [] "" hfam hidx]
  simp [Row.get?_set]

/-- C6: an IPv4 forwarding entry with interface index other than 1 whose index
is a key of both the adapter mapping and the interface-row mapping gets a row
whose `interface` is the adapter's first IP-address string, whose `gateway` is
the adapter's first gateway string and whose `mtu` is the decimal of the MTU
of the matched interface row. -/
theorem genRow_adapter_found (os : OS) (interfaces : StdMap MIB_IPINTERFACE_ROW)
    (adapters : StdMap IP_ADAPTER_INFO) (currentRow : MIB_IPFORWARD_ROW2)
    (actualInterface : MIB_IPINTERFACE_ROW) (actualAdapter : IP_ADAPTER_INFO)
    (hfam : currentRow.DestinationPrefix.Prefix.si_family = AF_INET)
    (hidx : currentRow.InterfaceIndex ≠ 1)
    (had : adapters.at_ currentRow.InterfaceIndex = .ok actualAdapter)
    (hif : interfaces.at_ currentRow.InterfaceIndex = .ok actualInterface) :
    ∃ r, genRow os interfaces adapters currentRow = .ok r ∧
      r.get? "interface" = some actualAdapter.IpAddressList.IpAddress ∧
      r.get? "gateway" = some actualAdapter.GatewayList.IpAddress ∧
      r.get? "mtu" = some (INTEGER actualInterface.NlMtu) := by
  refine ⟨_, genRow_of_interface os interfaces adapters currentRow actualInterface hif, ?_⟩
  rw [assembleRow_ipv4 os adapters actualInterface currentRow hfam,
    ipv4Branch_adapter os adapters actualInterface currentRow [] "" actualAdapter hfam hidx had]
  simp [Row.get?_set]

/-- Witness of C6 on the default route of `demoOS`, on interface 5. -/
theorem genRow_adapter_found_witness :
    ∃ r, genRow demoOS demoInterfaces demoAdapters routeDefault4 = .ok r ∧
      r.get? "interface" = some adapter5.IpAddressList.IpAddress ∧
      r.get? "gateway" = some adapter5.GatewayList.IpAddress ∧
      r.get? "mtu" = some (INTEGER ifRow5.NlMtu) :=
  genRow_adapter_found demoOS demoInterfaces demoAdapters routeDefault4 ifRow5 adapter5
    rfl (by decide) rfl rfl

/-- C7: an IPv4 forwarding entry with interface index other than 1 that is
absent from the adapter mapping and present in the interface-row mapping
still gets a row, after which the loop goes on with the following entries.
That row has an empty `interface`, no `gateway` key and no `mtu` key; its
`destination` is the dotted-decimal text of the destination address, its
`type` follows the loopback flag, its `metric` is the 32-bit sum of the two
metrics, its `netmask` the decimal prefix length and its `flags` "-1". -/
theorem genRow_adapter_missing (os : OS) (interfaces : StdMap MIB_IPINTERFACE_ROW)
    (adapters : StdMap IP_ADAPTER_INFO) (currentRow : MIB_IPFORWARD_ROW2)
    (actualInterface : MIB_IPINTERFACE_ROW)
    (hfam : currentRow.DestinationPrefix.Prefix.si_family = AF_INET)
    (hidx : currentRow.InterfaceIndex ≠ 1)
    (had : adapters.at_ currentRow.InterfaceIndex = .error Exn.out_of_range)
    (hif : interfaces.at_ currentRow.InterfaceIndex = .ok actualInterface) :
    ∃ r, genRow os interfaces adapters currentRow = .ok r ∧
      (∀ (rest : List MIB_IPFORWARD_ROW2) (results : QueryData),
        genRoutesLoop os interfaces adapters (currentRow :: rest) results =
          genRoutesLoop os interfaces adapters rest (results ++ [r])) ∧
      r.get? "interface" = some "" ∧
      r.get? "gateway" = none ∧
      r.get? "mtu" = none ∧
      r.get? "destination" =
        some (String.mk (dottedDecimal currentRow.DestinationPrefix.Prefix.Ipv4)) ∧
      r.get? "type" = some (if currentRow.Loopback then "local" else "remote") ∧
      r.get? "metric" =
        some (INTEGER ((currentRow.Metric + actualInterface.Metric) % 2 ^ 32)) ∧
      r.get? "netmask" = some (to_string currentRow.DestinationPrefix.PrefixLength) ∧
      r.get? "flags" = some "-1" := by
  have hrow := genRow_of_interface os interfaces adapters currentRow actualInterface hif
  refine ⟨_, hrow, ?_, ?_⟩
  · intro rest results
    simp only [genRoutesLoop, hrow]
  · rw [assembleRow_ipv4 os adapters actualInterface currentRow hfam,
      ipv4Branch_no_adapter os adapters actualInterface currentRow [] "" _ hfam hidx had]
    simp [Row.get?_set, Row.get?_nil]

/-- Witness of C7 on the route of `demoOS` on interface 7, which has an
interface row and no adapter record. -/
theorem genRow_adapter_missing_witness :
    ∃ r, genRow demoOS demoInterfaces demoAdapters routeTunnel4 = .ok r ∧
      (∀ (rest : List MIB_IPFORWARD_ROW2) (results : QueryData),
        genRoutesLoop demoOS demoInterfaces demoAdapters (routeTunnel4 :: rest) results =
          genRoutesLoop demoOS demoInterfaces demoAdapters rest (results ++ [r])) ∧
      r.get? "interface" = some "" ∧
      r.get? "gateway" = none ∧
      r.get? "mtu" = none ∧
      r.get? "destination" =
        some (String.mk (dottedDecimal routeTunnel4.DestinationPrefix.Prefix.Ipv4)) ∧
      r.get? "type" = some (if routeTunnel4.Loopback then "local" else "remote") ∧
      r.get? "metric" = some (INTEGER ((routeTunnel4.Metric + ifRow7.Metric) % 2 ^ 32)) ∧
      r.get? "netmask" = some (to_string routeTunnel4.DestinationPrefix.PrefixLength) ∧
      r.get? "flags" = some "-1" :=
  genRow_adapter_missing demoOS demoInterfaces demoAdapters routeTunnel4 ifRow7
    rfl (by decide) rfl rfl

/-- C8: every row that `genRoutes` emits carries, as `metric`, the decimal of
the sum modulo 2^32 of the metric of the forwarding entry at the same
position and the metric of the interface row matched by that entry's
interface index. -/
theorem genRoutes_metric (os : OS) (rows : QueryData) (hrows : genRoutes os = .ok rows)
    (i : Nat) (r : Row) (hr : rows[i]? = some r) :
    ∃ currentRow actualInterface,
      (os.GetIpForwardTable2 AF_UNSPEC).2.Table[i]? = some currentRow ∧
      (getInterfaceRowMapping os AF_UNSPEC).at_ currentRow.InterfaceIndex =
        .ok actualInterface ∧
      r.get? "metric" =
        some (INTEGER ((currentRow.Metric + actualInterface.Metric) % 2 ^ 32)) := by
  unfold genRoutes at hrows
  by_cases hfetch : (os.GetIpForwardTable2 AF_UNSPEC).1 = NO_ERROR
  · simp only [hfetch, ne_eq, not_true_eq_false, if_false] at hrows
    obtain ⟨pushed, hp, hmap⟩ := (genRoutesLoop_ok os _ _ _ [] rows).1 hrows
    simp only [List.nil_append] at hp
    subst hp
    have hi := congrArg (fun l => l[i]?) hmap
    simp only [List.getElem?_map, hr] at hi
    cases hrow : (os.GetIpForwardTable2 AF_UNSPEC).2.Table[i]? with
    | none => rw [hrow] at hi; simp at hi
    | some currentRow =>
      rw [hrow] at hi
      simp only [Option.map_some', Option.some.injEq] at hi
      obtain ⟨actualInterface, hif, hreq⟩ := genRow_ok_inv os _ _ currentRow r hi
      refine ⟨currentRow, actualInterface, rfl, hif, ?_⟩
      rw [hreq]
      exact assembleRow_metric os _ actualInterface currentRow
  · simp only [hfetch, ne_eq, not_false_eq_true, if_true] at hrows
    have : rows = [] := (Except.ok.inj hrows).symm
    subst this
    simp at hr

/-- Witness of C8 on `demoOS`, at the third row: the route metric 4294967295
and the interface metric 5 wrap around to "4". -/
theorem genRoutes_metric_witness :
    ∃ currentRow actualInterface,
      (demoOS.GetIpForwardTable2 AF_UNSPEC).2.Table[2]? = some currentRow ∧
      (getInterfaceRowMapping demoOS AF_UNSPEC).at_ currentRow.InterfaceIndex =
        .ok actualInterface ∧
      Row.get? [("flags", "-1"), ("netmask", "8"), ("metric", "4"), ("interface", ""),
          ("type", "remote"), ("destination", "10.0.0.0")] "metric" =
        some (INTEGER ((currentRow.Metric + actualInterface.Metric) % 2 ^ 32)) :=
  genRoutes_metric demoOS demoRows rfl 2 _ rfl

/-- C9: the `type` column depends on the family and the loopback flag only.
With the interface index in the interface-row mapping, an IPv6 entry gets
`type` "local" whatever its loopback flag, and an IPv4 entry gets "local" if
its loopback flag is set and "remote" otherwise, whatever its interface index
and whatever the adapter mapping. -/
theorem genRow_type (os : OS) (interfaces : StdMap MIB_IPINTERFACE_ROW)
    (adapters : StdMap IP_ADAPTER_INFO) (currentRow : MIB_IPFORWARD_ROW2)
    (actualInterface : MIB_IPINTERFACE_ROW)
    (hif : interfaces.at_ currentRow.InterfaceIndex = .ok actualInterface) :
    ∃ r, genRow os interfaces adapters currentRow = .ok r ∧
      (currentRow.DestinationPrefix.Prefix.si_family = AF_INET6 →
        r.get? "type" = some "local") ∧
      (currentRow.DestinationPrefix.Prefix.si_family = AF_INET →
        r.get? "type" = some (if currentRow.Loopback then "local" else "remote")) := by
  refine ⟨_, genRow_of_interface os interfaces adapters currentRow actualInterface hif, ?_, ?_⟩
  · intro hfam
    rw [assembleRow_ipv6 os adapters actualInterface currentRow hfam]
    simp only [Row.get?_set]
    simpa using ipv6Branch_type os actualInterface currentRow []
  · intro hfam
    rw [assembleRow_ipv4 os adapters actualInterface currentRow hfam]
    simp only [Row.get?_set]
    simpa using ipv4Branch_type os adapters actualInterface currentRow [] ""

/-- Witness of C9 on the IPv6 route of `demoOS`, whose loopback flag is not
set and whose `type` is "local". -/
theorem genRow_type_witness :
    ∃ r, genRow demoOS demoInterfaces demoAdapters routeLoopback6 = .ok r ∧
      (routeLoopback6.DestinationPrefix.Prefix.si_family = AF_INET6 →
        r.get? "type" = some "local") ∧
      (routeLoopback6.DestinationPrefix.Prefix.si_family = AF_INET →
        r.get? "type" = some (if routeLoopback6.Loopback then "local" else "remote")) :=
  genRow_type demoOS demoInterfaces demoAdapters routeLoopback6 ifRow1 rfl

/-- C10 as stated fails both ways.  On `demoOS` the sizing call returns the
non-success status `ERROR_BUFFER_OVERFLOW`, yet the function queries again
and returns a non-empty mapping; on `sizingSucceedsOS` the sizing call
reports success, yet the function returns the empty mapping after that one
call. -/
theorem getAdapterAddressMapping_sizing_counterexample :
    ((demoOS.GetAdaptersInfo sizingCall).1 ≠ NO_ERROR ∧
      (getAdapterAddressMapping demoOS).1 ≠ [] ∧
      getAdapterAddressMapping demoOS = ([(5, adapter5)], [sizingCall, queryCall 640])) ∧
    ((sizingSucceedsOS.GetAdaptersInfo sizingCall).1 = NO_ERROR ∧
      getAdapterAddressMapping sizingSucceedsOS = ([], [sizingCall])) :=
  ⟨⟨by decide, by decide, rfl⟩, ⟨rfl, rfl⟩⟩

/-- C10, amended: `getAdapterAddressMapping` returns the empty mapping, after
the sizing call alone, whenever the sizing call returns a status other than
`ERROR_BUFFER_OVERFLOW` (success included); when the sizing call returns
`ERROR_BUFFER_OVERFLOW` it makes exactly one more call, handing over the
buffer it allocated with the size the sizing call reported (`buffer.data()`,
which is the null pointer when that size is 0). -/
theorem getAdapterAddressMapping_sizing (os : OS) :
    ((os.GetAdaptersInfo sizingCall).1 ≠ ERROR_BUFFER_OVERFLOW →
      getAdapterAddressMapping os = ([], [sizingCall])) ∧
    ((os.GetAdaptersInfo sizingCall).1 = ERROR_BUFFER_OVERFLOW →
      (getAdapterAddressMapping os).2 =
        [sizingCall, queryCall (os.GetAdaptersInfo sizingCall).2.1]) := by
  constructor
  · intro h
    simp only [getAdapterAddressMapping, sizingCall] at h ⊢
    simp only [h, ne_eq, not_false_eq_true, if_true]
  · intro h
    simp only [getAdapterAddressMapping, sizingCall, queryCall] at h ⊢
    simp only [h, ne_eq, not_true_eq_false, if_false]
    split
    · rfl
    · split <;> rfl

/-- Witness of the amended C10: on `sizingSucceedsOS` the status is not
`ERROR_BUFFER_OVERFLOW` and the mapping is empty; on `demoOS` it is and the
second call asks with 640 bytes; on `zeroSizeOS` it is and the second call
is made with the size 0. -/
theorem getAdapterAddressMapping_sizing_witness :
    getAdapterAddressMapping sizingSucceedsOS = ([], [sizingCall]) ∧
      (getAdapterAddressMapping demoOS).2 =
        [sizingCall, queryCall (demoOS.GetAdaptersInfo sizingCall).2.1] ∧
      (getAdapterAddressMapping zeroSizeOS).2 =
        [sizingCall, queryCall (zeroSizeOS.GetAdaptersInfo sizingCall).2.1] :=
  ⟨(getAdapterAddressMapping_sizing sizingSucceedsOS).1 (by decide),
    (getAdapterAddressMapping_sizing demoOS).2 rfl,
    (getAdapterAddressMapping_sizing zeroSizeOS).2 rfl⟩

end tables
end osquery
